import Mathlib

/-!
Shallow embedding of the anomalib fragment:
`src/anomalib/core/model/anomalib_module.py` (AnomalibModule lifecycle hooks)
and `src/anomalib/core/callbacks/save_to_csv.py` (SaveToCSVCallback).

Tensors are embedded as lists of rationals; a batched image tensor of shape
(N, H, W) becomes `List (List (List Rat))`.  PyTorch `.int()` (truncation
toward zero) becomes `ratToInt`.  Dictionary-typed batch outputs become a
structure of optional fields; a missing key is `none`, and indexing a missing
key is a `KeyError` modelled with `Except`.
-/

/-- PyTorch tensor `.int()` truncates toward zero. -/
def ratToInt (q : Rat) : Int := q.num.tdiv q.den

/-- `torch.max` over a one-dimensional tensor (0 is junk for the empty
tensor, on which PyTorch raises instead). -/
def listMax : List Rat → Rat
  | [] => 0
  | x :: xs => xs.foldl max x

/-- A per-batch output mapping (Python `dict`) with its optional keys:
`pred_scores` (per-sample score), `anomaly_maps` (per-sample H×W score map),
`label` (per-sample ground-truth), `mask` (per-sample H×W ground-truth mask),
`pred_labels` (derived binary decision). -/
structure BatchOutput where
  pred_scores : Option (List Rat)
  anomaly_maps : Option (List (List (List Rat)))
  label : Option (List Rat)
  mask : Option (List (List (List Rat)))
  pred_labels : Option (List Bool)
deriving DecidableEq, Repr

/-- `AnomalibModule._post_process`: if `pred_scores` is not in the mapping and
`anomaly_maps` is, derive `pred_scores` as the per-sample max of the flattened
anomaly map (`reshape(N, -1).max(dim=1).values`); otherwise do nothing. -/
def post_process (outputs : BatchOutput) : BatchOutput :=
  match outputs.pred_scores, outputs.anomaly_maps with
  | none, some maps =>
      { outputs with pred_scores := some (maps.map (fun m => listMax m.flatten)) }
  | _, _ => outputs

/-- `v` is the maximum of the list `l`. -/
def IsMaxOf (v : Rat) (l : List Rat) : Prop := v ∈ l ∧ ∀ x ∈ l, x ≤ v

lemma le_foldl_max (xs : List Rat) (a : Rat) : a ≤ xs.foldl max a := by
  induction xs generalizing a with
  | nil => exact le_refl a
  | cons y ys ih =>
      exact le_trans (le_max_left a y) (ih (max a y))

lemma mem_le_foldl_max (xs : List Rat) (a x : Rat) (hx : x ∈ xs) :
    x ≤ xs.foldl max a := by
  induction xs generalizing a with
  | nil => cases hx
  | cons y ys ih =>
      rcases List.mem_cons.mp hx with h | h
      · subst h
        exact le_trans (le_max_right a x) (le_foldl_max ys (max a x))
      · exact ih (max a y) h

lemma foldl_max_mem (xs : List Rat) (a : Rat) :
    xs.foldl max a = a ∨ xs.foldl max a ∈ xs := by
  induction xs generalizing a with
  | nil => exact Or.inl rfl
  | cons y ys ih =>
      rcases ih (max a y) with h | h
      · rcases max_choice a y with hm | hm
        · exact Or.inl (by rw [List.foldl_cons, h, hm])
        · exact Or.inr (by rw [List.foldl_cons, h, hm]; exact List.mem_cons_self y ys)
      · exact Or.inr (List.mem_cons_of_mem y h)

lemma listMax_isMaxOf (l : List Rat) (hl : l ≠ []) : IsMaxOf (listMax l) l := by
  cases l with
  | nil => exact absurd rfl hl
  | cons x xs =>
      constructor
      · rcases foldl_max_mem xs x with h | h
        · rw [listMax, h]; exact List.mem_cons_self x xs
        · exact List.mem_cons_of_mem x h
      · intro y hy
        rcases List.mem_cons.mp hy with h | h
        · subst h; exact le_foldl_max xs y
        · exact mem_le_foldl_max xs x y h

/-- One recorded `update(preds, targets)` call on a metric or threshold
aggregator. -/
abbrev Update := List Rat × List Int

/-- `AnomalibModule._collect_outputs(image_metric, pixel_metric, outputs)`:
for each output, update the image aggregator with
`(output["pred_scores"], output["label"].int())` (a `KeyError` propagates if
either key is missing), and, only when that output has both `mask` and
`anomaly_maps`, update the pixel aggregator with
`(anomaly_maps.flatten(), mask.flatten().int())`.  Aggregator state is the
list of recorded update calls. -/
def collect_outputs (image_metric pixel_metric : List Update) :
    List BatchOutput → Except String (List Update × List Update)
  | [] => .ok (image_metric, pixel_metric)
  | o :: rest =>
    match o.pred_scores, o.label with
    | some ps, some lb =>
      match o.mask, o.anomaly_maps with
      | some mk, some am =>
          collect_outputs (image_metric ++ [(ps, lb.map ratToInt)])
            (pixel_metric ++ [(am.flatten.flatten, mk.flatten.flatten.map ratToInt)]) rest
      | _, _ =>
          collect_outputs (image_metric ++ [(ps, lb.map ratToInt)]) pixel_metric rest
    | _, _ => .error "KeyError"

/-- The image-aggregator update `_collect_outputs` performs for one output,
when that output has the required keys. -/
def image_update (o : BatchOutput) : Option Update :=
  match o.pred_scores, o.label with
  | some ps, some lb => some (ps, lb.map ratToInt)
  | _, _ => none

/-- The pixel-aggregator update `_collect_outputs` performs for one output:
present exactly when the output has both `mask` and `anomaly_maps`. -/
def pixel_update (o : BatchOutput) : Option Update :=
  match o.mask, o.anomaly_maps with
  | some mk, some am => some (am.flatten.flatten, mk.flatten.flatten.map ratToInt)
  | _, _ => none

/-- `anomalib.core.metrics.AdaptiveThreshold` (imported, source not in this
fragment).  Modelled from the spec: a stateful aggregator exposing
`update(prediction, target)` (recorded here as a list of calls), `compute()`
(sets `value` from the recorded calls via an externally chosen aggregation
function, passed in as a parameter `f`), and a scalar `value` initialised to
the configured default. -/
structure AdaptiveThreshold where
  updates : List Update
  value : Rat
deriving DecidableEq, Repr

/-- `AdaptiveThreshold.compute()` for aggregation algorithm `f`. -/
def AdaptiveThreshold.compute (f : List Update → Rat) (t : AdaptiveThreshold) :
    AdaptiveThreshold :=
  { t with value := f t.updates }

/-- A `MetricCollection` (AUROC + F1): its accumulated update calls and the
F1 metric's decision threshold, which `_compute_adaptive_threshold`
overwrites. -/
structure MetricCollection where
  updates : List Update
  f1_threshold : Rat
deriving DecidableEq, Repr

/-- The mutable state of an `AnomalibModule` instance touched by the
fragment's hooks: configuration, the two thresholds, the two metric
collections, and the log sink (`log_dict` calls recorded in order). -/
structure ModuleState where
  task : String
  adaptive_threshold : Bool
  image_threshold : AdaptiveThreshold
  pixel_threshold : AdaptiveThreshold
  image_metrics : MetricCollection
  pixel_metrics : MetricCollection
  logged : List String
deriving DecidableEq, Repr

/-- `AnomalibModule._log_metrics`: `log_dict(image_metrics)`, then
`log_dict(pixel_metrics)` only when the task is `"segmentation"`. -/
def log_metrics (s : ModuleState) : ModuleState :=
  let s1 := { s with logged := s.logged ++ ["image_metrics"] }
  if s1.task = "segmentation" then { s1 with logged := s1.logged ++ ["pixel_metrics"] }
  else s1

/-- `AnomalibModule._compute_adaptive_threshold(outputs)`: collect the epoch's
outputs into the two threshold aggregators, compute the image threshold; if
`outputs[0]` has both `mask` and `anomaly_maps` keys compute the pixel
threshold, else set its value to the image threshold's value (an empty epoch
raises `IndexError` on `outputs[0]`); finally synchronize both F1 decision
thresholds.  `f` is the external aggregation algorithm of
`AdaptiveThreshold.compute`. -/
def compute_adaptive_threshold (f : List Update → Rat) (s : ModuleState)
    (outputs : List BatchOutput) : Except String ModuleState := do
  let (imgU, pixU) ← collect_outputs s.image_threshold.updates s.pixel_threshold.updates outputs
  let image1 := AdaptiveThreshold.compute f { s.image_threshold with updates := imgU }
  let pixel0 : AdaptiveThreshold := { s.pixel_threshold with updates := pixU }
  match outputs with
  | [] => .error "IndexError"
  | o :: _ =>
    let pixel1 :=
      if o.mask.isSome && o.anomaly_maps.isSome then AdaptiveThreshold.compute f pixel0
      else { pixel0 with value := image1.value }
    .ok { s with
      image_threshold := image1
      pixel_threshold := pixel1
      image_metrics := { s.image_metrics with f1_threshold := image1.value }
      pixel_metrics := { s.pixel_metrics with f1_threshold := pixel1.value } }

/-- `AnomalibModule.validation_epoch_end(outputs)`: adaptive threshold
computation when enabled, then collect outputs into the metric collections,
then log. -/
def validation_epoch_end (f : List Update → Rat) (s : ModuleState)
    (outputs : List BatchOutput) : Except String ModuleState := do
  let s1 ← if s.adaptive_threshold then compute_adaptive_threshold f s outputs else .ok s
  let (imgU, pixU) ← collect_outputs s1.image_metrics.updates s1.pixel_metrics.updates outputs
  .ok (log_metrics { s1 with
    image_metrics := { s1.image_metrics with updates := imgU }
    pixel_metrics := { s1.pixel_metrics with updates := pixU } })

/-- `AnomalibModule.test_epoch_end(outputs)`: collect outputs into the metric
collections, then log. -/
def test_epoch_end (s : ModuleState) (outputs : List BatchOutput) :
    Except String ModuleState := do
  let (imgU, pixU) ← collect_outputs s.image_metrics.updates s.pixel_metrics.updates outputs
  .ok (log_metrics { s with
    image_metrics := { s.image_metrics with updates := imgU }
    pixel_metrics := { s.pixel_metrics with updates := pixU } })

/-- `AnomalibModule.validation_step`: the base class raises
`NotImplementedError` on every batch. -/
def validation_step {β : Type} (_batch : β) (_batch_idx : Nat) :
    Except String BatchOutput :=
  .error "NotImplementedError"

/-- `AnomalibModule.predict_step(batch, batch_idx, _)`: run the (subclass)
`validation_step` `vstep`, post-process its output in place, then set
`pred_labels` to the elementwise `pred_scores >= image_threshold.value`
(missing `pred_scores` after post-processing is a `KeyError`). -/
def predict_step {β : Type} (vstep : β → Nat → Except String BatchOutput)
    (s : ModuleState) (batch : β) (batch_idx : Nat) : Except String BatchOutput := do
  let outputs ← vstep batch batch_idx
  let outputs := post_process outputs
  match outputs.pred_scores with
  | none => .error "KeyError"
  | some ps =>
      .ok { outputs with
        pred_labels := some (ps.map (fun x => decide (s.image_threshold.value ≤ x))) }

/-- `AnomalibModule.test_step(batch, _)`: delegates to `validation_step`. -/
def test_step {β : Type} (vstep : β → Nat → Except String BatchOutput)
    (batch : β) (batch_idx : Nat) : Except String BatchOutput :=
  vstep batch batch_idx

/-- `AnomalibModule.validation_step_end`: post-process and return. -/
def validation_step_end (val_step_outputs : BatchOutput) : BatchOutput :=
  post_process val_step_outputs

/-- `AnomalibModule.test_step_end`: post-process and return. -/
def test_step_end (test_step_outputs : BatchOutput) : BatchOutput :=
  post_process test_step_outputs

/-- The `pl_module.results` summary read by `SaveToCSVCallback`:
per test sample a filename, a ground-truth integer label and a boolean
predicted label. -/
structure TestResults where
  filenames : List String
  true_labels : List Int
  pred_labels : List Bool
deriving DecidableEq, Repr

/-- The data frame `SaveToCSVCallback.on_test_epoch_end` builds:
`pred_label` is `pred_labels.astype(int)` and `wrong_prediction` is
`np.logical_xor(true_labels, pred_labels).astype(int)` (NumPy truthiness:
an integer is true iff nonzero). -/
structure DataFrame where
  name : List String
  true_label : List Int
  pred_label : List Int
  wrong_prediction : List Int
deriving DecidableEq, Repr

/-- Build the exporter's data frame from the results summary. -/
def build_data_frame (results : TestResults) : DataFrame :=
  { name := results.filenames
    true_label := results.true_labels
    pred_label := results.pred_labels.map (fun b => if b then 1 else 0)
    wrong_prediction :=
      List.zipWith (fun t p => if xor (t != 0) p then (1 : Int) else 0)
        results.true_labels results.pred_labels }

/-- `SaveToCSVCallback.on_test_epoch_end`: build the data frame; if
`trainer.log_dir` is set, write it to `<log_dir>/results.csv` (returned as
the written path and contents), else raise `ValueError` and write nothing. -/
def on_test_epoch_end (log_dir : Option String) (results : TestResults) :
    Except String (String × DataFrame) :=
  let data_frame := build_data_frame results
  match log_dir with
  | some d => .ok (d ++ "/results.csv", data_frame)
  | none => .error "trainer.log_dir does not exist to save the results."

/-- C2: for every batch-output mapping, if `pred_scores` is absent and
`anomaly_maps` is present, `_post_process` sets `pred_scores` to the
per-sample maximum of the flattened anomaly map (so `pred_scores[i]` is the
maximum of `anomaly_maps[i]` over all spatial positions, whenever sample `i`
has at least one pixel); in every other case the mapping is left entirely
unchanged. -/
theorem post_process_derives_pred_scores (o : BatchOutput) :
    (∀ maps, o.pred_scores = none → o.anomaly_maps = some maps →
      post_process o =
        { o with pred_scores := some (maps.map (fun m => listMax m.flatten)) } ∧
      ∀ m ∈ maps, m.flatten ≠ [] → IsMaxOf (listMax m.flatten) m.flatten) ∧
    ((o.pred_scores ≠ none ∨ o.anomaly_maps = none) → post_process o = o) := by
  constructor
  · intro maps h1 h2
    refine ⟨by simp [post_process, h1, h2], ?_⟩
    intro m _ hne
    exact listMax_isMaxOf m.flatten hne
  · intro h
    cases hps : o.pred_scores with
    | some ps => simp [post_process, hps]
    | none =>
        cases ham : o.anomaly_maps with
        | some maps =>
            rcases h with h | h
            · exact absurd hps h
            · rw [ham] at h; cases h
        | none => simp [post_process, hps, ham]

/-- Concrete batch output used to instantiate the C2 theorem. -/
def oC2 : BatchOutput :=
  { pred_scores := none
    anomaly_maps := some [[[1, (5 : Rat)/2]]]
    label := none
    mask := none
    pred_labels := none }

/-- Witness for C2 at a concrete one-sample output. -/
theorem post_process_derives_pred_scores_witness :
    post_process oC2 =
      { oC2 with pred_scores := some ([[[1, (5 : Rat)/2]]].map (fun m => listMax m.flatten)) } ∧
    IsMaxOf (listMax ([[1, (5 : Rat)/2]] : List (List Rat)).flatten)
      ([[1, (5 : Rat)/2]] : List (List Rat)).flatten := by
  have h := (post_process_derives_pred_scores oC2).1 [[[1, (5 : Rat)/2]]] rfl rfl
  exact ⟨h.1, h.2 [[1, (5 : Rat)/2]] (by simp) (by simp)⟩

/-- C7: `_post_process` is idempotent: applying it twice yields the same
mapping as applying it once. -/
theorem post_process_idempotent (outputs : BatchOutput) :
    post_process (post_process outputs) = post_process outputs := by
  cases hps : outputs.pred_scores with
  | some ps => simp [post_process, hps]
  | none =>
      cases ham : outputs.anomaly_maps with
      | some maps => simp [post_process, hps, ham]
      | none => simp [post_process, hps, ham]

/-- C4: with an unset log directory the exporter raises the configuration
error and writes nothing; with a set log directory it writes the built data
frame to `results.csv` inside that directory. -/
theorem on_test_epoch_end_log_dir (results : TestResults) :
    on_test_epoch_end none results =
      .error "trainer.log_dir does not exist to save the results." ∧
    ∀ d : String,
      on_test_epoch_end (some d) results =
        .ok (d ++ "/results.csv", build_data_frame results) :=
  ⟨rfl, fun _ => rfl⟩

lemma getElem?_zipWith {α β γ : Type} (f : α → β → γ) (l1 : List α) (l2 : List β)
    (i : Nat) (a : α) (b : β) (h1 : l1[i]? = some a) (h2 : l2[i]? = some b) :
    (List.zipWith f l1 l2)[i]? = some (f a b) := by
  induction l1 generalizing l2 i with
  | nil => simp at h1
  | cons x xs ih =>
      cases l2 with
      | nil => simp at h2
      | cons y ys =>
          cases i with
          | zero =>
              simp only [List.getElem?_cons_zero, Option.some.injEq] at h1 h2
              simp [h1, h2]
          | succ n =>
              simp only [List.getElem?_cons_succ] at h1 h2
              simpa using ih ys n h1 h2

/-- C5: every exported row's `wrong_prediction` is the integer conversion of
the logical XOR of `true_label` and `pred_label`; for binary true labels this
is 1 exactly when the exported `true_label` and `pred_label` columns
disagree and 0 when they agree. -/
theorem wrong_prediction_is_xor (results : TestResults) (i : Nat) (t : Int) (p : Bool)
    (ht : results.true_labels[i]? = some t) (hp : results.pred_labels[i]? = some p) :
    (build_data_frame results).wrong_prediction[i]? =
      some (if xor (t != 0) p then (1 : Int) else 0) ∧
    (build_data_frame results).pred_label[i]? = some (if p then (1 : Int) else 0) ∧
    ((t = 0 ∨ t = 1) →
      (build_data_frame results).wrong_prediction[i]? =
        some (if t = (if p then (1 : Int) else 0) then 0 else 1)) := by
  have hw : (build_data_frame results).wrong_prediction[i]? =
      some (if xor (t != 0) p then (1 : Int) else 0) :=
    getElem?_zipWith _ _ _ _ _ _ ht hp
  have hl : (build_data_frame results).pred_label[i]? = some (if p then (1 : Int) else 0) := by
    simp [build_data_frame, hp]
  refine ⟨hw, hl, ?_⟩
  rintro (rfl | rfl) <;> cases p <;> simpa using hw

/-- Concrete results summary used to instantiate the C5 theorem. -/
def resultsC5 : TestResults :=
  { filenames := ["im0.png", "im1.png"]
    true_labels := [1, 1]
    pred_labels := [false, true] }

/-- Witness for C5: true=1, pred=0 gives wrong=1; true=1, pred=1 gives
wrong=0. -/
theorem wrong_prediction_is_xor_witness :
    (build_data_frame resultsC5).wrong_prediction[0]? = some 1 ∧
    (build_data_frame resultsC5).wrong_prediction[1]? = some 0 := by
  have h0 := (wrong_prediction_is_xor resultsC5 0 1 false rfl rfl).1
  have h1 := (wrong_prediction_is_xor resultsC5 1 1 true rfl rfl).1
  exact ⟨by simpa using h0, by simpa using h1⟩

lemma pixel_update_isSome (o : BatchOutput) :
    (pixel_update o).isSome ↔ (o.mask.isSome ∧ o.anomaly_maps.isSome) := by
  cases hmk : o.mask <;> cases ham : o.anomaly_maps <;> simp [pixel_update, hmk, ham]

lemma length_filterMap_of_isSome {α β : Type} (f : α → Option β) (l : List α)
    (h : ∀ x ∈ l, (f x).isSome) : (l.filterMap f).length = l.length := by
  induction l with
  | nil => rfl
  | cons x xs ih =>
      rcases Option.isSome_iff_exists.mp (h x (List.mem_cons_self x xs)) with ⟨b, hb⟩
      simp [List.filterMap_cons, hb, ih (fun y hy => h y (List.mem_cons_of_mem x hy))]

lemma collect_outputs_ok (outs : List BatchOutput) :
    ∀ img pix : List Update, (∀ o ∈ outs, o.pred_scores.isSome ∧ o.label.isSome) →
      collect_outputs img pix outs =
        .ok (img ++ outs.filterMap image_update, pix ++ outs.filterMap pixel_update) := by
  induction outs with
  | nil => intro img pix _; simp [collect_outputs]
  | cons o rest ih =>
      intro img pix h
      have ho := h o (List.mem_cons_self o rest)
      have hrest : ∀ o ∈ rest, o.pred_scores.isSome ∧ o.label.isSome :=
        fun x hx => h x (List.mem_cons_of_mem o hx)
      cases hps : o.pred_scores with
      | none => rw [hps] at ho; simp at ho
      | some ps =>
          cases hlb : o.label with
          | none => rw [hlb] at ho; simp at ho
          | some lb =>
              cases hmk : o.mask with
              | some mk =>
                  cases ham : o.anomaly_maps with
                  | some am =>
                      simp only [collect_outputs, hps, hlb, hmk, ham]
                      rw [ih _ _ hrest]
                      simp [image_update, pixel_update, hps, hlb, hmk, ham,
                        List.filterMap_cons]
                  | none =>
                      simp only [collect_outputs, hps, hlb, hmk, ham]
                      rw [ih _ _ hrest]
                      simp [image_update, pixel_update, hps, hlb, hmk, ham,
                        List.filterMap_cons]
              | none =>
                  cases ham : o.anomaly_maps with
                  | some am =>
                      simp only [collect_outputs, hps, hlb, hmk, ham]
                      rw [ih _ _ hrest]
                      simp [image_update, pixel_update, hps, hlb, hmk, ham,
                        List.filterMap_cons]
                  | none =>
                      simp only [collect_outputs, hps, hlb, hmk, ham]
                      rw [ih _ _ hrest]
                      simp [image_update, pixel_update, hps, hlb, hmk, ham,
                        List.filterMap_cons]

/-- C6: when every output of the epoch has `pred_scores` and `label`,
`_collect_outputs` updates the image aggregator once per output with
`(pred_scores, label.int())` and the pixel aggregator exactly for those
individual outputs carrying both `mask` and `anomaly_maps`, with
`(anomaly_maps.flatten(), mask.flatten().int())`; a mixed epoch thus
partially populates the pixel aggregator. -/
theorem collect_outputs_per_output (outs : List BatchOutput) (img pix : List Update)
    (h : ∀ o ∈ outs, o.pred_scores.isSome ∧ o.label.isSome) :
    collect_outputs img pix outs =
      .ok (img ++ outs.filterMap image_update, pix ++ outs.filterMap pixel_update) ∧
    (outs.filterMap image_update).length = outs.length ∧
    ∀ o ∈ outs, (pixel_update o).isSome ↔ (o.mask.isSome ∧ o.anomaly_maps.isSome) := by
  refine ⟨collect_outputs_ok outs img pix h, ?_, fun o _ => pixel_update_isSome o⟩
  refine length_filterMap_of_isSome image_update outs ?_
  intro o ho
  obtain ⟨h1, h2⟩ := h o ho
  rcases Option.isSome_iff_exists.mp h1 with ⟨ps, hps⟩
  rcases Option.isSome_iff_exists.mp h2 with ⟨lb, hlb⟩
  simp [image_update, hps, hlb]

/-- Concrete batch output that carries every key. -/
def oMasked : BatchOutput :=
  { pred_scores := some [(9 : Rat)]
    anomaly_maps := some [[[(3 : Rat)]]]
    label := some [1]
    mask := some [[[1]]]
    pred_labels := none }

/-- Concrete batch output without `mask` and `anomaly_maps`. -/
def oUnmasked : BatchOutput :=
  { pred_scores := some [(1 : Rat)]
    anomaly_maps := none
    label := some [0]
    mask := none
    pred_labels := none }

/-- Witness for C6 on a concrete mixed epoch: the image aggregator gets two
updates, the pixel aggregator only the masked output's update. -/
theorem collect_outputs_per_output_witness :
    collect_outputs [] [] [oMasked, oUnmasked] =
      .ok ([oMasked, oUnmasked].filterMap image_update,
           [oMasked, oUnmasked].filterMap pixel_update) ∧
    ([oMasked, oUnmasked].filterMap image_update).length = 2 ∧
    ∀ o ∈ [oMasked, oUnmasked],
      (pixel_update o).isSome ↔ (o.mask.isSome ∧ o.anomaly_maps.isSome) := by
  have h := collect_outputs_per_output [oMasked, oUnmasked] [] []
    (by intro o ho; fin_cases ho <;> exact ⟨rfl, rfl⟩)
  simpa using h

lemma except_bind_ok {ε α β : Type} (a : α) (k : α → Except ε β) :
    (Except.ok a >>= k) = k a := rfl

lemma except_bind_error {ε α β : Type} (e : ε) (k : α → Except ε β) :
    ((Except.error e : Except ε α) >>= k) = Except.error e := rfl

/-- A sample aggregation algorithm for the external
`AdaptiveThreshold.compute`: the maximum prediction score seen across all
recorded updates. -/
def fMaxScore (updates : List Update) : Rat :=
  listMax (updates.map (fun u => listMax u.1))

/-- A freshly constructed module state (both thresholds at default 0, empty
aggregators), segmentation task, adaptive thresholding enabled. -/
def sC1 : ModuleState :=
  { task := "segmentation"
    adaptive_threshold := true
    image_threshold := { updates := [], value := 0 }
    pixel_threshold := { updates := [], value := 0 }
    image_metrics := { updates := [], f1_threshold := 0 }
    pixel_metrics := { updates := [], f1_threshold := 0 }
    logged := [] }

/-- Project the two threshold values out of a threshold-computation result. -/
def thresholds_of (r : Except String ModuleState) : Option (Rat × Rat) :=
  match r with
  | .ok s => some (s.image_threshold.value, s.pixel_threshold.value)
  | .error _ => none

/-- Counterexample to C1 as stated: a mixed epoch whose first output carries
both `mask` and `anomaly_maps` but whose second does not.  The claim requires
the pixel threshold to be set equal to the just-computed image threshold; the
code instead computes it independently from the pixel aggregator's own
updates (here image threshold 9, pixel threshold 3). -/
theorem compute_adaptive_threshold_mixed_counterexample :
    thresholds_of (compute_adaptive_threshold fMaxScore sC1 [oMasked, oUnmasked]) =
      some (9, 3) ∧ (3 : Rat) ≠ 9 := by
  constructor
  · rfl
  · decide

/-- C1 amended: `_compute_adaptive_threshold` decides from the FIRST output
of the (non-empty) epoch only: all outputs feed the image threshold
aggregator and (for outputs that individually carry both `mask` and
`anomaly_maps`) the pixel threshold aggregator; the image threshold is
computed from its fed pairs; then, if `outputs[0]` carries both `mask` and
`anomaly_maps`, the pixel threshold is computed independently from its fed
pairs, otherwise it is set equal to the just-computed image threshold. -/
theorem compute_adaptive_threshold_first_output (f : List Update → Rat)
    (s : ModuleState) (o : BatchOutput) (rest : List BatchOutput) (s' : ModuleState)
    (h : compute_adaptive_threshold f s (o :: rest) = .ok s') :
    ∃ imgU pixU : List Update,
      collect_outputs s.image_threshold.updates s.pixel_threshold.updates (o :: rest) =
        .ok (imgU, pixU) ∧
      s'.image_threshold.value = f imgU ∧
      (if o.mask.isSome && o.anomaly_maps.isSome
        then s'.pixel_threshold.value = f pixU
        else s'.pixel_threshold.value = s'.image_threshold.value) := by
  cases hc : collect_outputs s.image_threshold.updates s.pixel_threshold.updates (o :: rest) with
  | error e =>
      unfold compute_adaptive_threshold at h
      rw [hc, except_bind_error] at h
      cases h
  | ok u =>
      obtain ⟨imgU, pixU⟩ := u
      refine ⟨imgU, pixU, rfl, ?_⟩
      unfold compute_adaptive_threshold at h
      rw [hc, except_bind_ok] at h
      dsimp only at h
      by_cases hif : (o.mask.isSome && o.anomaly_maps.isSome) = true
      · rw [if_pos hif] at h ⊢
        cases h
        exact ⟨rfl, rfl⟩
      · rw [if_neg hif] at h ⊢
        cases h
        exact ⟨rfl, rfl⟩

/-- The state `_compute_adaptive_threshold` produces in the C1 witness run. -/
def sC1' : ModuleState :=
  { task := "segmentation"
    adaptive_threshold := true
    image_threshold := { updates := [([9], [1]), ([1], [0])], value := 9 }
    pixel_threshold := { updates := [([3], [1])], value := 3 }
    image_metrics := { updates := [], f1_threshold := 9 }
    pixel_metrics := { updates := [], f1_threshold := 3 }
    logged := [] }

/-- Witness for the amended C1 on the concrete mixed epoch: the first output
has both keys, so the pixel threshold is computed from the pixel aggregator's
own updates. -/
theorem compute_adaptive_threshold_first_output_witness :
    ∃ imgU pixU : List Update,
      collect_outputs sC1.image_threshold.updates sC1.pixel_threshold.updates
          [oMasked, oUnmasked] = .ok (imgU, pixU) ∧
      sC1'.image_threshold.value = fMaxScore imgU ∧
      (if oMasked.mask.isSome && oMasked.anomaly_maps.isSome
        then sC1'.pixel_threshold.value = fMaxScore pixU
        else sC1'.pixel_threshold.value = sC1'.image_threshold.value) :=
  compute_adaptive_threshold_first_output fMaxScore sC1 oMasked [oUnmasked] sC1' rfl

/-- C3: `predict_step` returns the result of running `validation_step`, then
`_post_process`, then setting `pred_labels` to the elementwise comparison
`pred_scores >= image_threshold.value`; a score exactly equal to the current
image threshold is labeled positive. -/
theorem predict_step_spec {β : Type} (vstep : β → Nat → Except String BatchOutput)
    (s : ModuleState) (batch : β) (batch_idx : Nat) (o : BatchOutput) (ps : List Rat)
    (h1 : vstep batch batch_idx = .ok o)
    (h2 : (post_process o).pred_scores = some ps) :
    predict_step vstep s batch batch_idx =
      .ok { post_process o with
        pred_labels := some (ps.map (fun x => decide (s.image_threshold.value ≤ x))) } ∧
    (∀ i : Nat, ps[i]? = some s.image_threshold.value →
      (ps.map (fun x => decide (s.image_threshold.value ≤ x)))[i]? = some true) := by
  constructor
  · unfold predict_step
    rw [h1, except_bind_ok]
    dsimp only
    rw [h2]
  · intro i hi
    simp [List.getElem?_map, hi]

/-- Witness for C3: a constant `validation_step` returning a fully scored
output, thresholded at the default image threshold 0. -/
theorem predict_step_spec_witness :
    (predict_step (fun (_ : Nat) (_ : Nat) => Except.ok oMasked) sC1 0 0 =
      .ok { post_process oMasked with
        pred_labels :=
          some ([(9 : Rat)].map (fun x => decide (sC1.image_threshold.value ≤ x))) }) ∧
    (∀ i : Nat, ([(9 : Rat)])[i]? = some sC1.image_threshold.value →
      (([(9 : Rat)]).map (fun x => decide (sC1.image_threshold.value ≤ x)))[i]? =
        some true) :=
  predict_step_spec (fun _ _ => Except.ok oMasked) sC1 0 0 oMasked [(9 : Rat)] rfl rfl

/-- C9: the base `validation_step` fails with `NotImplementedError` on every
batch, and the error is not caught anywhere in the fragment: `predict_step`
and `test_step` built on the base `validation_step` propagate it. -/
theorem validation_step_not_implemented :
    (∀ (β : Type) (batch : β) (batch_idx : Nat),
        validation_step batch batch_idx = .error "NotImplementedError") ∧
    (∀ (β : Type) (s : ModuleState) (batch : β) (batch_idx : Nat),
        predict_step (fun (b : β) (i : Nat) => validation_step b i) s batch batch_idx =
          .error "NotImplementedError" ∧
        test_step (fun (b : β) (i : Nat) => validation_step b i) batch batch_idx =
          .error "NotImplementedError") :=
  ⟨fun _ _ _ => rfl, fun _ _ _ _ => ⟨rfl, rfl⟩⟩

lemma log_metrics_fields (s : ModuleState) :
    (log_metrics s).task = s.task ∧
    (log_metrics s).adaptive_threshold = s.adaptive_threshold ∧
    (log_metrics s).image_threshold = s.image_threshold ∧
    (log_metrics s).pixel_threshold = s.pixel_threshold ∧
    (log_metrics s).image_metrics = s.image_metrics ∧
    (log_metrics s).pixel_metrics = s.pixel_metrics := by
  unfold log_metrics
  by_cases h : s.task = "segmentation" <;> simp [h]

/-- C8: `test_epoch_end` never recomputes or mutates the image or pixel
thresholds (nor the synchronized F1 cutoffs), and its aggregation-and-logging
behavior coincides with `validation_epoch_end`'s whenever the latter skips
threshold recomputation. -/
theorem test_epoch_end_frozen (s : ModuleState) (outs : List BatchOutput) (s' : ModuleState)
    (h : test_epoch_end s outs = .ok s') :
    s'.image_threshold = s.image_threshold ∧
    s'.pixel_threshold = s.pixel_threshold ∧
    s'.image_metrics.f1_threshold = s.image_metrics.f1_threshold ∧
    s'.pixel_metrics.f1_threshold = s.pixel_metrics.f1_threshold ∧
    (s.adaptive_threshold = false →
      ∀ f : List Update → Rat, validation_epoch_end f s outs = test_epoch_end s outs) := by
  have hval : s.adaptive_threshold = false →
      ∀ f : List Update → Rat, validation_epoch_end f s outs = test_epoch_end s outs := by
    intro hf f
    rcases s with ⟨tk, adp, it, pt, im, pm, lg⟩
    cases hf
    rfl
  cases hc : collect_outputs s.image_metrics.updates s.pixel_metrics.updates outs with
  | error e =>
      unfold test_epoch_end at h
      rw [hc, except_bind_error] at h
      cases h
  | ok u =>
      obtain ⟨imgU, pixU⟩ := u
      unfold test_epoch_end at h
      rw [hc, except_bind_ok] at h
      dsimp only at h
      cases h
      obtain ⟨-, -, h3, h4, h5, h6⟩ := log_metrics_fields { s with
        image_metrics := { s.image_metrics with updates := imgU }
        pixel_metrics := { s.pixel_metrics with updates := pixU } }
      exact ⟨by rw [h3], by rw [h4], by rw [h5], by rw [h6], hval⟩

/-- Module state with adaptive thresholding disabled. -/
def sC8 : ModuleState :=
  { sC1 with adaptive_threshold := false }

/-- The state `test_epoch_end` produces in the C8/C10 witness runs. -/
def sC8' : ModuleState :=
  { task := "segmentation"
    adaptive_threshold := false
    image_threshold := { updates := [], value := 0 }
    pixel_threshold := { updates := [], value := 0 }
    image_metrics := { updates := [([1], [0])], f1_threshold := 0 }
    pixel_metrics := { updates := [], f1_threshold := 0 }
    logged := ["image_metrics", "pixel_metrics"] }

/-- Witness for C8 on a concrete epoch. -/
theorem test_epoch_end_frozen_witness :
    sC8'.image_threshold = sC8.image_threshold ∧
    sC8'.pixel_threshold = sC8.pixel_threshold ∧
    sC8'.image_metrics.f1_threshold = sC8.image_metrics.f1_threshold ∧
    sC8'.pixel_metrics.f1_threshold = sC8.pixel_metrics.f1_threshold ∧
    (sC8.adaptive_threshold = false →
      ∀ f : List Update → Rat,
        validation_epoch_end f sC8 [oUnmasked] = test_epoch_end sC8 [oUnmasked]) :=
  test_epoch_end_frozen sC8 [oUnmasked] sC8' rfl

/-- C10: with adaptive thresholding disabled, `validation_epoch_end` leaves
both threshold objects (and the F1 cutoffs) unchanged at their configured
values; it only updates the metric aggregators from the epoch's outputs and
logs. -/
theorem validation_epoch_end_fixed_thresholds (f : List Update → Rat)
    (s : ModuleState) (outs : List BatchOutput) (s' : ModuleState)
    (hadapt : s.adaptive_threshold = false)
    (h : validation_epoch_end f s outs = .ok s') :
    s'.image_threshold = s.image_threshold ∧
    s'.pixel_threshold = s.pixel_threshold ∧
    s'.image_metrics.f1_threshold = s.image_metrics.f1_threshold ∧
    s'.pixel_metrics.f1_threshold = s.pixel_metrics.f1_threshold ∧
    ∃ imgU pixU : List Update,
      collect_outputs s.image_metrics.updates s.pixel_metrics.updates outs =
        .ok (imgU, pixU) ∧
      s' = log_metrics { s with
        image_metrics := { s.image_metrics with updates := imgU }
        pixel_metrics := { s.pixel_metrics with updates := pixU } } := by
  cases hc : collect_outputs s.image_metrics.updates s.pixel_metrics.updates outs with
  | error e =>
      unfold validation_epoch_end at h
      rw [hadapt, if_neg Bool.false_ne_true, except_bind_ok] at h
      dsimp only at h
      rw [hc, except_bind_error] at h
      cases h
  | ok u =>
      obtain ⟨imgU, pixU⟩ := u
      unfold validation_epoch_end at h
      rw [hadapt, if_neg Bool.false_ne_true, except_bind_ok] at h
      dsimp only at h
      rw [hc, except_bind_ok] at h
      dsimp only at h
      cases h
      obtain ⟨-, -, h3, h4, h5, h6⟩ := log_metrics_fields { s with
        image_metrics := { s.image_metrics with updates := imgU }
        pixel_metrics := { s.pixel_metrics with updates := pixU } }
      exact ⟨by rw [h3], by rw [h4], by rw [h5], by rw [h6],
        imgU, pixU, rfl, rfl⟩

/-- Witness for C10 on a concrete epoch with adaptive thresholding off. -/
theorem validation_epoch_end_fixed_thresholds_witness :
    sC8'.image_threshold = sC8.image_threshold ∧
    sC8'.pixel_threshold = sC8.pixel_threshold ∧
    sC8'.image_metrics.f1_threshold = sC8.image_metrics.f1_threshold ∧
    sC8'.pixel_metrics.f1_threshold = sC8.pixel_metrics.f1_threshold ∧
    ∃ imgU pixU : List Update,
      collect_outputs sC8.image_metrics.updates sC8.pixel_metrics.updates [oUnmasked] =
        .ok (imgU, pixU) ∧
      sC8' = log_metrics { sC8 with
        image_metrics := { sC8.image_metrics with updates := imgU }
        pixel_metrics := { sC8.pixel_metrics with updates := pixU } } :=
  validation_epoch_end_fixed_thresholds fMaxScore sC8 [oUnmasked] sC8' rfl rfl
